import Mathlib

/-!
# Verification of the DocumentDB gateway request-execution core

A shallow embedding, in Lean 4, of the parts of the `pg_documentdb_gw`
gateway that the specification's testable properties concern:

* the W3C trace-context transcoder (`src/telemetry/context_propagation.rs`),
* the command processor's admin guards and scale coercion
  (`src/processor/data_management.rs`),
* the telemetry configuration resolver
  (`src/telemetry/{config,tracing,metrics,logging}.rs`),
* the per-request metrics recorder (`src/telemetry/metrics.rs`),
* telemetry manager shutdown (`src/telemetry/telemetry_manager.rs`),
* the process-wide tracing flag (`src/telemetry/mod.rs`).

Pure functions of the Rust source become Lean functions; machine integers
become `Nat`/`Int` with explicit bounds where they matter; fallible code
returns `Option`/`Except`.
-/

namespace DocumentDBGw

/-! ## Hexadecimal primitives

Models of Rust's `uN::from_str_radix(s, 16)` (used by the `opentelemetry`
crate's `TraceId::from_hex` / `SpanId::from_hex` and by
`u8::from_str_radix` in `parse_traceparent`) and of the lowercase-hex
`Display`/`LowerHex` renderings (`{:032x}`, `{:016x}`, `{:02x}`). -/

/-- Value of a single hex digit, accepting `0-9`, `a-f` and `A-F`
exactly as Rust's `char::to_digit(16)` does. -/
def hexDigitVal? (c : Char) : Option Nat :=
  if 48 ≤ c.toNat ∧ c.toNat ≤ 57 then some (c.toNat - 48)
  else if 97 ≤ c.toNat ∧ c.toNat ≤ 102 then some (c.toNat - 87)
  else if 65 ≤ c.toNat ∧ c.toNat ≤ 70 then some (c.toNat - 55)
  else none

/-- Whether `c` is a lowercase hex digit (`0-9` or `a-f`), the canonical
character set of a W3C traceparent. -/
def isLowerHexDigit (c : Char) : Bool :=
  (48 ≤ c.toNat && c.toNat ≤ 57) || (97 ≤ c.toNat && c.toNat ≤ 102)

/-- Accumulating hex parse, digit by digit from the left, as
`from_str_radix` consumes its input.  Fails at the first non-digit. -/
def parseHexCore : List Char → Nat → Option Nat
  | [], acc => some acc
  | c :: cs, acc =>
    match hexDigitVal? c with
    | some d => parseHexCore cs (16 * acc + d)
    | none => none

/-- The numeric value of a list of hex digits (junk digits count as 0;
only used under an all-digits hypothesis). -/
def hexVal (cs : List Char) : Nat :=
  cs.foldl (fun a c => 16 * a + (hexDigitVal? c).getD 0) 0

/-- Rust's `uN::from_str_radix(s, 16)` on a character list: an optional
leading `+`, then at least one hex digit, value below `bound = 2^N`
(overflow is an error).  `-` and every other character are rejected
because they are not hex digits. -/
def fromStrRadix16 (cs : List Char) (bound : Nat) : Option Nat :=
  let cs' := if cs.head? = some '+' then cs.tail else cs
  if cs'.isEmpty then none
  else
    match parseHexCore cs' 0 with
    | some v => if v < bound then some v else none
    | none => none

/-- The lowercase hex character of a digit `d < 16`, as Rust's `{:x}`
renders one. -/
def hexDigitChar (d : Nat) : Char :=
  if d < 10 then Char.ofNat (48 + d) else Char.ofNat (87 + d)

/-- Fixed-width lowercase hex rendering: the low `w` hex digits of `n`,
most significant first.  For `n < 16 ^ w` this is Rust's `{:0wx}`
zero-padded rendering; `TraceId` displays with `w = 32`, `SpanId` with
`w = 16`, and the flags byte with `w = 2`. -/
def hexRenderFixed : Nat → Nat → List Char
  | _, 0 => []
  | n, w + 1 => hexRenderFixed (n / 16) w ++ [hexDigitChar (n % 16)]

/-! ## Trace context transcoder (`src/telemetry/context_propagation.rs`)

`SpanContext` carries a 128-bit trace id, a 64-bit span id and an 8-bit
flags byte; `Context` optionally carries a remote span context (the result
of `Context::current().with_remote_span_context(..)`; the current context
of the gateway request path has no active span, so an absent remote
context models an invalid `Context`). -/

/-- Model of `opentelemetry::trace::SpanContext` (the fields the gateway
reads): ids and flags as numbers; `trace_id : u128`, `span_id : u64`,
`flags : u8`. -/
structure SpanCtx where
  traceId : Nat
  spanId : Nat
  flags : Nat
deriving DecidableEq

/-- `SpanContext::is_valid`: both ids differ from the all-zero invalid
value. -/
def SpanCtx.is_valid (c : SpanCtx) : Bool :=
  decide (c.traceId ≠ 0) && decide (c.spanId ≠ 0)

/-- `TraceFlags::is_sampled`: the low bit of the flags byte. -/
def SpanCtx.is_sampled (c : SpanCtx) : Bool :=
  decide (c.flags % 2 = 1)

/-- Model of `opentelemetry::Context` as seen by this code: at most one
remote span context. -/
structure Ctx where
  remote : Option SpanCtx
deriving DecidableEq

/-- `context.span().span_context()`: the remote span context, or the
invalid all-zero context when none was attached. -/
def Ctx.span_context (c : Ctx) : SpanCtx :=
  c.remote.getD ⟨0, 0, 0⟩

/-- Rust's `str::split('-')` on the characters of the traceparent:
every maximal run between `-` separators, empty runs included
(`"".split('-')` yields one empty piece). -/
def splitDash : List Char → List (List Char)
  | [] => [[]]
  | c :: cs =>
    if c = '-' then [] :: splitDash cs
    else
      match splitDash cs with
      | [] => [[c]]
      | p :: ps => (c :: p) :: ps

/-- The body of `parse_traceparent` past the part-count and version
checks: parse trace id (u128), span id (u64) and flags (u8) as hex;
reject all-zero ids; wrap the span context into a fresh `Context`. -/
def parseTraceparentTail (t s f : List Char) : Option Ctx :=
  match fromStrRadix16 t (2 ^ 128), fromStrRadix16 s (2 ^ 64),
        fromStrRadix16 f (2 ^ 8) with
  | some traceId, some spanId, some flags =>
    if traceId = 0 ∨ spanId = 0 then none
    else some ⟨some ⟨traceId, spanId, flags⟩⟩
  | _, _, _ => none

/-- `parse_traceparent`: split on `-`; require exactly 4 parts with
version part `"00"`; then `parseTraceparentTail`. -/
def parse_traceparent (traceparent : String) : Option Ctx :=
  match splitDash traceparent.data with
  | [v, t, s, f] =>
    if v ≠ "00".data then none else parseTraceparentTail t s f
  | _ => none

/-- Model of a parsed `serde_json::Value` (RFC 8259 value shapes; numbers
play no role here and are carried as integers). -/
inductive Json where
  | null
  | bool (b : Bool)
  | num (n : Int)
  | str (s : String)
  | arr (elems : List Json)
  | obj (members : List (String × Json))

/-- `serde_json::Value::get(key)`: field lookup on an object, `none` on
every other value shape. -/
def Json.get? (j : Json) (key : String) : Option Json :=
  match j with
  | .obj members => members.lookup key
  | _ => none

/-- `Value::as_str`. -/
def Json.asStr : Json → Option String
  | .str s => some s
  | _ => none

/-- `extract_context_from_comment`.  The `serde_json::from_str` call is
modelled by taking the parse result as input: `none` is a comment that is
not valid JSON (including the empty string), `some j` a comment that
parsed to the value `j`.  Every failure short-circuits to `none` via the
`ok()?` chain of the source. -/
def extract_context_from_comment (parsedComment : Option Json) : Option Ctx := do
  let json ← parsedComment
  let tp ← json.get? "traceparent"
  let s ← tp.asStr
  parse_traceparent s

/-- Model of `std::borrow::Cow<str>`: whether the result re-borrows the
input (no allocation) or owns a fresh string. -/
inductive CowStr where
  | borrowed (s : String)
  | owned (s : String)
deriving DecidableEq

/-- The apostrophe character, written by code point. -/
def apos : Char := Char.ofNat 39

/-- The opening of the SQL comment emitted by `format_trace_comment`:
the text `/* traceparent=` followed by an apostrophe. -/
def commentOpen : List Char := "/* traceparent=".data ++ [apos]

/-- The closing of that SQL comment: an apostrophe, then the text
`(apostrophe) */ ` (with the trailing space). -/
def commentClose : List Char := apos :: " */ ".data

/-- `format_trace_comment`: when the context's span context is valid and
sampled, prepend the comment
`/* traceparent='00-{trace_id:032x}-{span_id:016x}-{flags:02x}' */ ` to
the SQL and return an owned string; otherwise return the SQL borrowed,
unchanged. -/
def format_trace_comment (sql : String) (context : Ctx) : CowStr :=
  let sc := context.span_context
  if sc.is_valid && sc.is_sampled then
    .owned (String.mk (commentOpen ++ "00-".data ++
      hexRenderFixed sc.traceId 32 ++ "-".data ++
      hexRenderFixed sc.spanId 16 ++ "-".data ++
      hexRenderFixed sc.flags 2 ++ commentClose ++ sql.data))
  else
    .borrowed sql

/-! ## Errors and BSON values (`src/error`, `bson` as used by the processor) -/

/-- The DocumentDB error codes the modelled processor paths use. -/
inductive ErrorCode where
  | TypeMismatch
  | BadValue
  | Unauthorized
  | InternalError
deriving DecidableEq

/-- Model of `DocumentDBError` for the synchronous protocol errors:
a code plus a message. -/
structure DocErr where
  code : ErrorCode
  msg : String
deriving DecidableEq

/-- `DocumentDBError::type_mismatch`. -/
def DocErr.type_mismatch (msg : String) : DocErr := ⟨.TypeMismatch, msg⟩

/-- `DocumentDBError::bad_value`. -/
def DocErr.bad_value (msg : String) : DocErr := ⟨.BadValue, msg⟩

/-- Model of a raw BSON value as the processor reads it
(`RawBsonRef` restricted to the element types these code paths inspect;
`other` carries the debug name of any remaining element type, e.g.
`"Binary"` or `"ObjectId"`).  Numeric payloads are exact: `double`
carries a rational, which the gateway only moves around, never rounds. -/
inductive Bson where
  | double (q : ℚ)
  | string (s : String)
  | int32 (n : Int)
  | int64 (n : Int)
  | bool (b : Bool)
  | null
  | undefined
  | document (fields : List (String × Bson))
  | other (typeName : String)

/-- The Rust `Debug` name of the value's `ElementType`, as interpolated
into error messages. -/
def Bson.elementTypeName : Bson → String
  | .double _ => "Double"
  | .string _ => "String"
  | .int32 _ => "Int32"
  | .int64 _ => "Int64"
  | .bool _ => "Boolean"
  | .null => "Null"
  | .undefined => "Undefined"
  | .document _ => "EmbeddedDocument"
  | .other t => t

/-- `RawBsonRef::as_str`. -/
def Bson.asStr : Bson → Option String
  | .string s => some s
  | _ => none

/-- `RawDocument::get`: the first field with the given key, if any. -/
def bsonGet (fields : List (String × Bson)) (key : String) : Option Bson :=
  fields.lookup key

/-! ## Command processor (`src/processor/data_management.rs`)

The backend execution client (`PgDataClient`) is the opaque boundary: a
processor run returns `Except DocErr A` where `A` is the argument tuple
the processor hands to the backend dispatch call, and an `error` result is
a synchronous protocol error produced with no backend call. -/

/-- `convert_to_scale`: `Double` as-is, `Int32`/`Int64` widened to the
floating value, `Undefined`/`Null` as `1.0`, any other element type a
`TypeMismatch` naming the offending type. -/
def convert_to_scale (scale : Bson) : Except DocErr ℚ :=
  match scale with
  | .double q => .ok q
  | .int32 n => .ok (n : ℚ)
  | .int64 n => .ok (n : ℚ)
  | .undefined => .ok 1
  | .null => .ok 1
  | v => .error ⟨.TypeMismatch, "Unexpected bson type for scale: " ++ v.elementTypeName⟩

/-- The scale argument `process_coll_stats` computes before calling
`execute_coll_stats`: the payload's `scale` field through
`convert_to_scale`, defaulting to `1.0` when absent. -/
def process_coll_stats_scale (payload : List (String × Bson)) : Except DocErr ℚ :=
  match bsonGet payload "scale" with
  | some scale => convert_to_scale scale
  | none => .ok 1

/-- The scale argument `process_db_stats` computes before calling
`execute_db_stats` (textually the same computation as in
`process_coll_stats`). -/
def process_db_stats_scale (payload : List (String × Bson)) : Except DocErr ℚ :=
  match bsonGet payload "scale" with
  | some scale => convert_to_scale scale
  | none => .ok 1

/-- The `extract_fields` closure of `process_kill_op`, folded over the
request's fields in order: every `"op"` field must be a string (else
`TypeMismatch`), the last string value wins, other fields are ignored. -/
def killOpExtract : List (String × Bson) → Except DocErr (Option String)
  | [] => .ok none
  | (k, v) :: rest =>
    if k = "op" then
      match v.asStr with
      | some opStr =>
        match killOpExtract rest with
        | .ok r => .ok (r.or (some opStr))
        | .error e => .error e
      | none =>
        .error (.type_mismatch
          ("Expected op field to be a string, but got " ++ v.elementTypeName))
    else killOpExtract rest

/-- `process_kill_op`: extract the `"op"` field (missing → `BadValue`,
non-string → `TypeMismatch`), then require the admin database (else
`Unauthorized`), then dispatch the operation id to
`execute_kill_op`. -/
def process_kill_op (db : String) (fields : List (String × Bson)) :
    Except DocErr String :=
  match killOpExtract fields with
  | .error e => .error e
  | .ok none => .error (.bad_value "Did not provide op field")
  | .ok (some opId) =>
    if db ≠ "admin" then
      .error ⟨.Unauthorized, "killOp may only be run against the admin database."⟩
    else .ok opId

/-- Modelled from the spec: `crate::bson::convert_to_bool` is not among
the provided sources (only its call sites in
`src/processor/data_management.rs` are).  Per the spec (§4.1) the
`getParameter` options sub-document "selects `allParameters`/`showDetails`
booleans"; values convertible to a boolean are booleans themselves and
numbers (nonzero = true), anything else is not convertible. -/
def convert_to_bool : Bson → Option Bool
  | .bool b => some b
  | .int32 n => some (decide (n ≠ 0))
  | .int64 n => some (decide (n ≠ 0))
  | .double q => some (decide (q ≠ 0))
  | _ => none

/-- Accumulator state of `process_get_parameter`'s `extract_fields`
closure: `allParameters`, `showDetails`, the `"*"` wildcard flag, and
the requested parameter names. -/
structure GetParamState where
  allParameters : Bool
  showDetails : Bool
  star : Bool
  params : List String
deriving DecidableEq

/-- The inner loop over a `getParameter` options sub-document:
`allParameters` and `showDetails` must convert to booleans (else
`TypeMismatch`), unknown keys are ignored. -/
def getParamOptions : List (String × Bson) → Bool → Bool → Except DocErr (Bool × Bool)
  | [], a, s => .ok (a, s)
  | (k, v) :: rest, a, s =>
    if k = "allParameters" then
      match convert_to_bool v with
      | some b => getParamOptions rest b s
      | none => .error (.type_mismatch "allParameters should be a bool")
    else if k = "showDetails" then
      match convert_to_bool v with
      | some b => getParamOptions rest a b
      | none => .error (.type_mismatch "showDetails should be convertible to a bool")
    else getParamOptions rest a s

/-- The `extract_fields` closure of `process_get_parameter`, folded over
the request's fields in order: a `"getParameter"` field that is the
string `"*"` sets the wildcard, one that is a sub-document selects the
options, every other top-level key is a requested parameter name. -/
def getParamExtract : List (String × Bson) → GetParamState → Except DocErr GetParamState
  | [], st => .ok st
  | (k, v) :: rest, st =>
    if k = "getParameter" then
      match v.asStr with
      | some s =>
        if s = "*" then getParamExtract rest { st with star := true }
        else getParamExtract rest st
      | none =>
        match v with
        | .document doc =>
          match getParamOptions doc st.allParameters st.showDetails with
          | .ok (a, sh) =>
            getParamExtract rest { st with allParameters := a, showDetails := sh }
          | .error e => .error e
        | _ => getParamExtract rest st
    else getParamExtract rest { st with params := st.params ++ [k] }

/-- `process_get_parameter`: extract the fields, then require the admin
database (else `Unauthorized`), then dispatch to `execute_get_parameter`
with `(all, show_details, params)` — `(true, false, [])` under the `"*"`
wildcard. -/
def process_get_parameter (db : String) (fields : List (String × Bson)) :
    Except DocErr (Bool × Bool × List String) :=
  match getParamExtract fields ⟨false, false, false, []⟩ with
  | .error e => .error e
  | .ok st =>
    if db ≠ "admin" then
      .error ⟨.Unauthorized, "getParameter may only be run against the admin database."⟩
    else if st.star then .ok (true, false, [])
    else .ok (st.allParameters, st.showDetails, st.params)

/-! ## Telemetry configuration resolver
(`src/telemetry/{config,tracing,metrics,logging}.rs`)

Each accessor resolves: explicit JSON value, else a named environment
variable, else the compiled default.  The process environment is modelled
as a record of the parsed lookups `env_var` performs: a field is `none`
when the variable is unset or fails to parse, exactly `env_var`'s
contract. -/

/-- The environment variables the telemetry accessors consult, each
already through `env_var`'s parse. -/
structure EnvState where
  OTEL_TRACING_ENABLED : Option Bool
  OTEL_EXPORTER_OTLP_TRACES_ENDPOINT : Option String
  OTEL_EXPORTER_OTLP_ENDPOINT : Option String
  OTEL_TRACES_SAMPLER_ARG : Option ℚ
  OTEL_BSP_SCHEDULE_DELAY : Option Nat
  OTEL_BSP_MAX_EXPORT_BATCH_SIZE : Option Nat
  OTEL_EXPORTER_OTLP_TRACES_TIMEOUT : Option Nat
  OTEL_EXPORTER_OTLP_TIMEOUT : Option Nat
  OTEL_METRICS_ENABLED : Option Bool
  OTEL_EXPORTER_OTLP_METRICS_ENDPOINT : Option String
  OTEL_METRIC_EXPORT_INTERVAL : Option Nat
  OTEL_EXPORTER_OTLP_METRICS_TIMEOUT : Option Nat
  OTEL_LOGGING_ENABLED : Option Bool
  OTEL_EXPORTER_OTLP_LOGS_ENDPOINT : Option String
  RUST_LOG : Option String
  OTEL_LOGS_CONSOLE_ENABLED : Option Bool
  OTEL_BLRP_MAX_QUEUE_SIZE : Option Nat
  OTEL_BLRP_MAX_EXPORT_BATCH_SIZE : Option Nat
  OTEL_BLRP_SCHEDULE_DELAY : Option Nat
  OTEL_EXPORTER_OTLP_LOGS_TIMEOUT : Option Nat
  OTEL_SERVICE_NAME : Option String
  OTEL_SERVICE_VERSION : Option String

/-- Shared default constants (`src/telemetry/config.rs`). -/
def DEFAULT_OTLP_ENDPOINT : String := "http://localhost:4317"

def DEFAULT_EXPORT_TIMEOUT_MS : Nat := 10000

/-- The compiled crate name / version used for the default service
identity (`CARGO_CRATE_NAME` / `CARGO_PKG_VERSION` at compile time). -/
def DEFAULT_SERVICE_NAME : String := "documentdb_gateway"

def DEFAULT_SERVICE_VERSION : String := "0.1.0"

/-- `TracingConfig` (the JSON-provided optional values; `TracingConfig::new`
copies them verbatim from `TracingOptions`). -/
structure TracingConfig where
  enabled : Option Bool
  otlp_endpoint : Option String
  sampling_ratio : Option ℚ
  export_interval_ms : Option Nat
  max_export_batch_size : Option Nat
  export_timeout_ms : Option Nat

def DEFAULT_TRACING_ENABLED : Bool := false

def DEFAULT_SAMPLING_RATIO_VALUE : ℚ := 1 / 10

def DEFAULT_TRACE_EXPORT_INTERVAL_MS : Nat := 5000

def DEFAULT_TRACE_MAX_EXPORT_BATCH_SIZE : Nat := 512

/-- `f64::clamp(0.0, 1.0)` on the exact value. -/
def clamp01 (q : ℚ) : ℚ := max 0 (min 1 q)

/-- `TracingConfig::tracing_enabled`. -/
def TracingConfig.tracing_enabled (c : TracingConfig) (env : EnvState) : Bool :=
  (c.enabled.or env.OTEL_TRACING_ENABLED).getD DEFAULT_TRACING_ENABLED

/-- `TracingConfig::otlp_endpoint`. -/
def TracingConfig.otlp_endpoint_resolved (c : TracingConfig) (env : EnvState) : String :=
  ((c.otlp_endpoint.or env.OTEL_EXPORTER_OTLP_TRACES_ENDPOINT).or
    env.OTEL_EXPORTER_OTLP_ENDPOINT).getD DEFAULT_OTLP_ENDPOINT

/-- `TracingConfig::sampling_ratio` (resolved, then clamped to `[0, 1]`). -/
def TracingConfig.sampling_ratio_resolved (c : TracingConfig) (env : EnvState) : ℚ :=
  clamp01 ((c.sampling_ratio.or env.OTEL_TRACES_SAMPLER_ARG).getD DEFAULT_SAMPLING_RATIO_VALUE)

/-- `TracingConfig::export_interval_ms`. -/
def TracingConfig.export_interval_ms_resolved (c : TracingConfig) (env : EnvState) : Nat :=
  (c.export_interval_ms.or env.OTEL_BSP_SCHEDULE_DELAY).getD DEFAULT_TRACE_EXPORT_INTERVAL_MS

/-- `TracingConfig::max_export_batch_size`. -/
def TracingConfig.max_export_batch_size_resolved (c : TracingConfig) (env : EnvState) : Nat :=
  (c.max_export_batch_size.or env.OTEL_BSP_MAX_EXPORT_BATCH_SIZE).getD
    DEFAULT_TRACE_MAX_EXPORT_BATCH_SIZE

/-- `TracingConfig::export_timeout_ms`. -/
def TracingConfig.export_timeout_ms_resolved (c : TracingConfig) (env : EnvState) : Nat :=
  ((c.export_timeout_ms.or env.OTEL_EXPORTER_OTLP_TRACES_TIMEOUT).or
    env.OTEL_EXPORTER_OTLP_TIMEOUT).getD DEFAULT_EXPORT_TIMEOUT_MS

/-- `MetricsConfig`. -/
structure MetricsConfig where
  enabled : Option Bool
  otlp_endpoint : Option String
  export_interval_ms : Option Nat
  export_timeout_ms : Option Nat

def DEFAULT_METRICS_ENABLED : Bool := true

def DEFAULT_COLLECTION_INTERVAL_MS : Nat := 15000

/-- `MetricsConfig::metrics_enabled`. -/
def MetricsConfig.metrics_enabled (c : MetricsConfig) (env : EnvState) : Bool :=
  (c.enabled.or env.OTEL_METRICS_ENABLED).getD DEFAULT_METRICS_ENABLED

/-- `MetricsConfig::otlp_endpoint`. -/
def MetricsConfig.otlp_endpoint_resolved (c : MetricsConfig) (env : EnvState) : String :=
  ((c.otlp_endpoint.or env.OTEL_EXPORTER_OTLP_METRICS_ENDPOINT).or
    env.OTEL_EXPORTER_OTLP_ENDPOINT).getD DEFAULT_OTLP_ENDPOINT

/-- `MetricsConfig::export_interval_ms`. -/
def MetricsConfig.export_interval_ms_resolved (c : MetricsConfig) (env : EnvState) : Nat :=
  (c.export_interval_ms.or env.OTEL_METRIC_EXPORT_INTERVAL).getD
    DEFAULT_COLLECTION_INTERVAL_MS

/-- `MetricsConfig::export_timeout_ms`. -/
def MetricsConfig.export_timeout_ms_resolved (c : MetricsConfig) (env : EnvState) : Nat :=
  ((c.export_timeout_ms.or env.OTEL_EXPORTER_OTLP_METRICS_TIMEOUT).or
    env.OTEL_EXPORTER_OTLP_TIMEOUT).getD DEFAULT_EXPORT_TIMEOUT_MS

/-- `LoggingConfig`. -/
structure LoggingConfig where
  enabled : Option Bool
  otlp_endpoint : Option String
  level : Option String
  console_enabled : Option Bool
  max_queue_size : Option Nat
  max_export_batch_size : Option Nat
  export_interval_ms : Option Nat
  export_timeout_ms : Option Nat

def DEFAULT_LOGGING_ENABLED : Bool := true

def DEFAULT_CONSOLE_ENABLED : Bool := false

def DEFAULT_MAX_QUEUE_SIZE : Nat := 4096

def DEFAULT_LOG_MAX_EXPORT_BATCH_SIZE : Nat := 256

def DEFAULT_LOG_EXPORT_INTERVAL_MS : Nat := 5000

def DEFAULT_LOG_LEVEL : String := "info"

/-- `LoggingConfig::logging_enabled`. -/
def LoggingConfig.logging_enabled (c : LoggingConfig) (env : EnvState) : Bool :=
  (c.enabled.or env.OTEL_LOGGING_ENABLED).getD DEFAULT_LOGGING_ENABLED

/-- `LoggingConfig::otlp_endpoint`. -/
def LoggingConfig.otlp_endpoint_resolved (c : LoggingConfig) (env : EnvState) : String :=
  ((c.otlp_endpoint.or env.OTEL_EXPORTER_OTLP_LOGS_ENDPOINT).or
    env.OTEL_EXPORTER_OTLP_ENDPOINT).getD DEFAULT_OTLP_ENDPOINT

/-- `LoggingConfig::level`. -/
def LoggingConfig.level_resolved (c : LoggingConfig) (env : EnvState) : String :=
  (c.level.or env.RUST_LOG).getD DEFAULT_LOG_LEVEL

/-- `LoggingConfig::console_enabled`. -/
def LoggingConfig.console_enabled_resolved (c : LoggingConfig) (env : EnvState) : Bool :=
  (c.console_enabled.or env.OTEL_LOGS_CONSOLE_ENABLED).getD DEFAULT_CONSOLE_ENABLED

/-- `LoggingConfig::max_queue_size`. -/
def LoggingConfig.max_queue_size_resolved (c : LoggingConfig) (env : EnvState) : Nat :=
  (c.max_queue_size.or env.OTEL_BLRP_MAX_QUEUE_SIZE).getD DEFAULT_MAX_QUEUE_SIZE

/-- `LoggingConfig::max_export_batch_size`. -/
def LoggingConfig.max_export_batch_size_resolved (c : LoggingConfig) (env : EnvState) : Nat :=
  (c.max_export_batch_size.or env.OTEL_BLRP_MAX_EXPORT_BATCH_SIZE).getD
    DEFAULT_LOG_MAX_EXPORT_BATCH_SIZE

/-- `LoggingConfig::export_interval_ms`. -/
def LoggingConfig.export_interval_ms_resolved (c : LoggingConfig) (env : EnvState) : Nat :=
  (c.export_interval_ms.or env.OTEL_BLRP_SCHEDULE_DELAY).getD DEFAULT_LOG_EXPORT_INTERVAL_MS

/-- `LoggingConfig::export_timeout_ms`. -/
def LoggingConfig.export_timeout_ms_resolved (c : LoggingConfig) (env : EnvState) : Nat :=
  ((c.export_timeout_ms.or env.OTEL_EXPORTER_OTLP_LOGS_TIMEOUT).or
    env.OTEL_EXPORTER_OTLP_TIMEOUT).getD DEFAULT_EXPORT_TIMEOUT_MS

/-- `TelemetryConfig` service identity (the top-level optional JSON
values). -/
structure TelemetryServiceIdentity where
  service_name : Option String
  service_version : Option String

/-- `TelemetryConfig::service_name`. -/
def TelemetryServiceIdentity.service_name_resolved
    (c : TelemetryServiceIdentity) (env : EnvState) : String :=
  (c.service_name.or env.OTEL_SERVICE_NAME).getD DEFAULT_SERVICE_NAME

/-- `TelemetryConfig::service_version`. -/
def TelemetryServiceIdentity.service_version_resolved
    (c : TelemetryServiceIdentity) (env : EnvState) : String :=
  (c.service_version.or env.OTEL_SERVICE_VERSION).getD DEFAULT_SERVICE_VERSION

/-- The three-tier resolution contract of one configuration option: the
explicit structured (JSON) value always wins; with no JSON value the
named environment variable wins; with neither, the compiled default. -/
def ResolvesJsonEnvDefault {α : Type} (json env : Option α) (dflt result : α) : Prop :=
  (∀ v, json = some v → result = v) ∧
  (json = none → ∀ v, env = some v → result = v) ∧
  (json = none → env = none → result = dflt)

/-- The resolution contract of an option with a signal-specific and a
generic environment variable (endpoints and timeouts): JSON first, then
the specific variable, then the generic one, then the default. -/
def ResolvesJsonEnv2Default {α : Type} (json env1 env2 : Option α) (dflt result : α) :
    Prop :=
  (∀ v, json = some v → result = v) ∧
  (json = none → ∀ v, env1 = some v → result = v) ∧
  (json = none → env1 = none → ∀ v, env2 = some v → result = v) ∧
  (json = none → env1 = none → env2 = none → result = dflt)

/-- The environment with every telemetry variable unset. -/
def emptyEnv : EnvState :=
  ⟨none, none, none, none, none, none, none, none, none, none, none,
   none, none, none, none, none, none, none, none, none, none, none⟩

/-! ## Metrics recorder (`src/telemetry/metrics.rs`) -/

/-- `RequestIntervalKind` (the intervals `record_request_metrics`
reads). -/
inductive RequestIntervalKind where
  | HandleRequest
  | PostgresBeginTransaction
  | ProcessRequest
  | PostgresCommitTransaction
deriving DecidableEq

/-- `RequestTracker::get_interval_elapsed_time` as a pure map from
interval kind to elapsed nanoseconds (`i64`; a phase that did not run
holds zero). -/
def RequestTracker := RequestIntervalKind → Int

/-- The wire header as the recorder reads it: the declared message
length. -/
structure Header where
  length : Nat

/-- The parsed request as the recorder reads it: the request type's
display name and the target database (its accessor can fail). -/
structure RequestMeta where
  requestType : String
  db : Option String

/-- A successful `Response` as the recorder sizes it: the serialized raw
document's byte length when one exists. -/
structure RespOk where
  rawDocSize : Option Nat

/-- A `CommandError` as the recorder reads it: the numeric error code. -/
structure CmdErr where
  code : Int

/-- One counter emission: which instrument, with which attributes and
value.  Durations are exact seconds (`f64` values of
`Duration::as_secs_f64` on nanosecond inputs are exact: every
`ns / 10^9` with `ns < 2^63` is representable). -/
inductive MetricEvent where
  | operationsCount (attrs : List (String × String)) (v : Nat)
  | operationDurationTotal (attrs : List (String × String)) (v : ℚ)
  | requestSizeTotal (attrs : List (String × String)) (v : Nat)
  | responseSizeTotal (attrs : List (String × String)) (v : Nat)
deriving DecidableEq

/-- `duration_to_secs`: clamp negative nanoseconds to zero, convert to
seconds. -/
def duration_to_secs (ns : Int) : ℚ := ((max ns 0 : Int) : ℚ) / 1000000000

/-- The base attribute set: db.system.name, db.operation.name,
db.collection.name, db.namespace, plus error.type on failure. -/
def baseAttrs (request : Option RequestMeta) (response : Sum RespOk (CmdErr × Nat))
    (collection : String) : List (String × String) :=
  let operation := (request.map (·.requestType)).getD "unknown"
  let dbName := (request.bind (·.db)).getD "unknown"
  let common := [("db.system.name", "documentdb"), ("db.operation.name", operation),
    ("db.collection.name", collection), ("db.namespace", dbName)]
  match response with
  | .inl _ => common
  | .inr (err, _) => common ++ [("error.type", toString err.code)]

/-- The serialized response size: raw document length on success (zero
when the response has no raw document), the provided error size on
failure. -/
def responseSizeBytes (response : Sum RespOk (CmdErr × Nat)) : Nat :=
  match response with
  | .inl resp => resp.rawDocSize.getD 0
  | .inr (_, size) => size

/-- The phase sub-metric emitted for one backend interval: the base
attributes extended with the phase label, valued at the interval's
clamped duration — emitted only when the elapsed time is strictly
positive. -/
def phaseEvents (attrs : List (String × String)) (label : String) (ns : Int) :
    List MetricEvent :=
  if ns > 0 then [.operationDurationTotal (attrs ++ [("db.operation.phase", label)])
    (duration_to_secs ns)]
  else []

/-- The phase label attached to a backend interval's duration
sub-metric. -/
def phaseLabel : RequestIntervalKind → String
  | .HandleRequest => "handle_request"
  | .PostgresBeginTransaction => "postgres_begin_transaction"
  | .ProcessRequest => "postgres_execution"
  | .PostgresCommitTransaction => "postgres_commit"

/-- `OtelTelemetryProvider::record_request_metrics`: the four base
counter emissions, then one phase-labelled duration per backend interval
whose elapsed time is strictly positive, in source order. -/
def record_request_metrics (header : Header) (request : Option RequestMeta)
    (response : Sum RespOk (CmdErr × Nat)) (collection : String)
    (tracker : RequestTracker) : List MetricEvent :=
  let attrs := baseAttrs request response collection
  [MetricEvent.operationsCount attrs 1,
   MetricEvent.operationDurationTotal attrs
     (duration_to_secs (tracker .HandleRequest)),
   MetricEvent.requestSizeTotal attrs header.length,
   MetricEvent.responseSizeTotal attrs (responseSizeBytes response)]
  ++ phaseEvents attrs "postgres_begin_transaction" (tracker .PostgresBeginTransaction)
  ++ phaseEvents attrs "postgres_execution" (tracker .ProcessRequest)
  ++ phaseEvents attrs "postgres_commit" (tracker .PostgresCommitTransaction)

/-! ## Telemetry manager shutdown (`src/telemetry/telemetry_manager.rs`)

A provider slot is `none` when the signal was disabled (no provider was
built), `some outcome` when a provider exists and its `shutdown()` call
returns `outcome` (`none` = clean, `some e` = the error message). -/

/-- One step of `TelemetryManager::shutdown` for one provider slot,
threading `(first_error, warned)`: an absent provider is skipped, a
clean shutdown changes nothing, a failure becomes the returned error if
none is recorded yet and a logged warning otherwise. -/
def shutdownStep (provider : Option (Option String)) :
    Option String × List String → Option String × List String
  | (firstError, warned) =>
    match provider with
    | none => (firstError, warned)
    | some none => (firstError, warned)
    | some (some e) =>
      match firstError with
      | none => (some e, warned)
      | some _ => (firstError, warned ++ [e])

/-- The names of the providers a `shutdown` run attempts, in source
order: every present provider, whatever the outcomes. -/
def shutdownAttempted (tracer meter logger : Option (Option String)) : List String :=
  (if tracer.isSome then ["tracer"] else []) ++
  (if meter.isSome then ["meter"] else []) ++
  (if logger.isSome then ["logger"] else [])

/-- `TelemetryManager::shutdown`: attempt tracer, then meter, then
logger, collecting the first failure for the caller and logging later
failures as warnings; also reports which providers were attempted. -/
def TelemetryManager.shutdown (tracer meter logger : Option (Option String)) :
    (Option String × List String) × List String :=
  (shutdownStep logger (shutdownStep meter (shutdownStep tracer (none, []))),
   shutdownAttempted tracer meter logger)

/-- The failures among the present providers, in shutdown order. -/
def presentFailures (tracer meter logger : Option (Option String)) : List String :=
  (tracer.bind id).toList ++ (meter.bind id).toList ++ (logger.bind id).toList

/-! ## Process-wide tracing flag (`src/telemetry/mod.rs`)

The static `TRACING_ENABLED: AtomicBool = AtomicBool::new(false)` with
its two accessors, as explicit state. -/

/-- The flag cell. -/
structure TelemetryFlagState where
  tracingEnabled : Bool
deriving DecidableEq

/-- The compile-time initial value of `TRACING_ENABLED`. -/
def TRACING_ENABLED_INIT : TelemetryFlagState := ⟨false⟩

/-- `set_tracing_enabled`. -/
def set_tracing_enabled (enabled : Bool) (_ : TelemetryFlagState) : TelemetryFlagState :=
  ⟨enabled⟩

/-- `is_tracing_enabled`. -/
def is_tracing_enabled (st : TelemetryFlagState) : Bool :=
  st.tracingEnabled

/-- An access to the flag cell. -/
inductive FlagEvent where
  | write (b : Bool)
  | read
deriving DecidableEq

/-- Whether an event writes the cell. -/
def FlagEvent.isWrite : FlagEvent → Bool
  | .write _ => true
  | .read => false

/-- Modelled from the spec: the call site that invokes
`set_tracing_enabled` during telemetry manager startup is not among the
provided sources (only its `pub(crate)` declaration in
`src/telemetry/mod.rs` is).  Per the spec (§9, Design Notes) the flag
has "a defined initialization point (set once during telemetry manager
startup)", so the process's accesses to the cell are: one write of the
resolved tracing-enabled value during `TelemetryManager::init_telemetry`,
then only reads through `is_tracing_enabled` for the rest of the process
lifetime (`n` request-path reads). -/
def processFlagTrace (enabled : Bool) (n : Nat) : List FlagEvent :=
  [FlagEvent.write enabled] ++ List.replicate n FlagEvent.read

/-- The initialization-phase prefix of the trace: everything up to and
including telemetry manager startup. -/
def initPhaseLength : Nat := 1

/-- Run a list of accesses against the cell, returning the final state
and each read's result, using the two accessors. -/
def runFlagEvents : List FlagEvent → TelemetryFlagState → TelemetryFlagState × List Bool
  | [], st => (st, [])
  | .write b :: rest, st => runFlagEvents rest (set_tracing_enabled b st)
  | .read :: rest, st =>
    let (st', reads) := runFlagEvents rest st
    (st', is_tracing_enabled st :: reads)

/-! ## Hexadecimal round-trip lemmas -/

/-- The accumulating foldl value underlying `hexVal`. -/
def hexValFrom (cs : List Char) (acc : Nat) : Nat :=
  cs.foldl (fun a c => 16 * a + (hexDigitVal? c).getD 0) acc

lemma hexVal_eq_hexValFrom (cs : List Char) : hexVal cs = hexValFrom cs 0 := rfl

lemma hexDigitVal?_of_digit {c : Char} (h1 : 48 ≤ c.toNat) (h2 : c.toNat ≤ 57) :
    hexDigitVal? c = some (c.toNat - 48) := by
  unfold hexDigitVal?
  rw [if_pos ⟨h1, h2⟩]

lemma hexDigitVal?_of_af {c : Char} (h1 : 97 ≤ c.toNat) (h2 : c.toNat ≤ 102) :
    hexDigitVal? c = some (c.toNat - 87) := by
  unfold hexDigitVal?
  rw [if_neg (by omega), if_pos ⟨h1, h2⟩]

lemma isLowerHexDigit_cases {c : Char} (h : isLowerHexDigit c = true) :
    (48 ≤ c.toNat ∧ c.toNat ≤ 57) ∨ (97 ≤ c.toNat ∧ c.toNat ≤ 102) := by
  unfold isLowerHexDigit at h
  simp only [Bool.or_eq_true, Bool.and_eq_true, decide_eq_true_eq] at h
  exact h

lemma hexDigitVal?_getD_lt (c : Char) : (hexDigitVal? c).getD 0 < 16 := by
  unfold hexDigitVal?
  split
  next h => simp only [Option.getD_some]; omega
  next h =>
    split
    next h2 => simp only [Option.getD_some]; omega
    next h2 =>
      split
      next h3 => simp only [Option.getD_some]; omega
      next h3 => simp

lemma hexDigitChar_of_lower {c : Char} (h : isLowerHexDigit c = true) :
    hexDigitChar ((hexDigitVal? c).getD 0) = c := by
  rcases isLowerHexDigit_cases h with ⟨h1, h2⟩ | ⟨h1, h2⟩
  · rw [hexDigitVal?_of_digit h1 h2]
    simp only [Option.getD_some]
    unfold hexDigitChar
    rw [if_pos (by omega)]
    have he : 48 + (c.toNat - 48) = c.toNat := by omega
    rw [he, Char.ofNat_toNat]
  · rw [hexDigitVal?_of_af h1 h2]
    simp only [Option.getD_some]
    unfold hexDigitChar
    rw [if_neg (by omega)]
    have he : 87 + (c.toNat - 87) = c.toNat := by omega
    rw [he, Char.ofNat_toNat]

lemma lower_of_hexDigitChar : ∀ d < 16,
    hexDigitVal? (hexDigitChar d) = some d ∧ isLowerHexDigit (hexDigitChar d) = true := by
  decide

lemma not_dash_of_lower {c : Char} (h : isLowerHexDigit c = true) : c ≠ '-' := by
  intro he
  subst he
  simp [isLowerHexDigit] at h

lemma not_plus_of_lower {c : Char} (h : isLowerHexDigit c = true) : c ≠ '+' := by
  intro he
  subst he
  simp [isLowerHexDigit] at h

lemma parseHexCore_of_lower :
    ∀ (cs : List Char) (acc : Nat), (∀ c ∈ cs, isLowerHexDigit c = true) →
      parseHexCore cs acc = some (hexValFrom cs acc)
  | [], acc, _ => rfl
  | c :: cs, acc, h => by
    have hc := h c (List.mem_cons_self c cs)
    have hd : hexDigitVal? c = some ((hexDigitVal? c).getD 0) := by
      rcases isLowerHexDigit_cases hc with ⟨h1, h2⟩ | ⟨h1, h2⟩
      · rw [hexDigitVal?_of_digit h1 h2]; rfl
      · rw [hexDigitVal?_of_af h1 h2]; rfl
    show (match hexDigitVal? c with
      | some d => parseHexCore cs (16 * acc + d)
      | none => none) = _
    rw [hd]
    simp only
    rw [parseHexCore_of_lower cs _ (fun x hx => h x (List.mem_cons_of_mem c hx))]
    rfl

lemma hexValFrom_lt :
    ∀ (cs : List Char) (acc : Nat), hexValFrom cs acc < (acc + 1) * 16 ^ cs.length
  | [], acc => by simp [hexValFrom]
  | c :: cs, acc => by
    have hd := hexDigitVal?_getD_lt c
    have ih := hexValFrom_lt cs (16 * acc + (hexDigitVal? c).getD 0)
    have step : hexValFrom (c :: cs) acc =
        hexValFrom cs (16 * acc + (hexDigitVal? c).getD 0) := rfl
    rw [step]
    calc hexValFrom cs (16 * acc + (hexDigitVal? c).getD 0)
        < (16 * acc + (hexDigitVal? c).getD 0 + 1) * 16 ^ cs.length := ih
      _ ≤ ((acc + 1) * 16) * 16 ^ cs.length := by
          apply Nat.mul_le_mul_right
          omega
      _ = (acc + 1) * 16 ^ (cs.length + 1) := by
          rw [pow_succ]
          ring
      _ = (acc + 1) * 16 ^ (c :: cs).length := by rw [List.length_cons]

lemma hexVal_lt (cs : List Char) : hexVal cs < 16 ^ cs.length := by
  have := hexValFrom_lt cs 0
  simpa [hexVal_eq_hexValFrom] using this

lemma hexVal_append_singleton (ds : List Char) (c : Char) :
    hexVal (ds ++ [c]) = 16 * hexVal ds + (hexDigitVal? c).getD 0 := by
  simp [hexVal, List.foldl_append]

lemma hexRenderFixed_hexVal :
    ∀ cs : List Char, (∀ c ∈ cs, isLowerHexDigit c = true) →
      hexRenderFixed (hexVal cs) cs.length = cs := by
  intro cs
  induction cs using List.reverseRecOn with
  | nil => intro _; rfl
  | append_singleton ds c ih =>
    intro h
    have hds : ∀ x ∈ ds, isLowerHexDigit x = true := fun x hx =>
      h x (List.mem_append_left _ hx)
    have hc : isLowerHexDigit c = true := h c (List.mem_append_right _ (List.mem_singleton.mpr rfl))
    have hd := hexDigitVal?_getD_lt c
    rw [hexVal_append_singleton, List.length_append, List.length_singleton]
    show hexRenderFixed (16 * hexVal ds + (hexDigitVal? c).getD 0) (ds.length + 1) = ds ++ [c]
    unfold hexRenderFixed
    have hdiv : (16 * hexVal ds + (hexDigitVal? c).getD 0) / 16 = hexVal ds := by omega
    have hmod : (16 * hexVal ds + (hexDigitVal? c).getD 0) % 16 = (hexDigitVal? c).getD 0 := by
      omega
    rw [hdiv, hmod, ih hds, hexDigitChar_of_lower hc]

lemma hexVal_hexRenderFixed :
    ∀ (w n : Nat), n < 16 ^ w → hexVal (hexRenderFixed n w) = n
  | 0, n, h => by
    simp only [pow_zero, Nat.lt_one_iff] at h
    subst h
    rfl
  | w + 1, n, h => by
    have hdivlt : n / 16 < 16 ^ w := by
      rw [pow_succ] at h
      omega
    have ih := hexVal_hexRenderFixed w (n / 16) hdivlt
    have hmod : n % 16 < 16 := Nat.mod_lt _ (by omega)
    have hrt := (lower_of_hexDigitChar (n % 16) hmod).1
    show hexVal (hexRenderFixed (n / 16) w ++ [hexDigitChar (n % 16)]) = n
    rw [hexVal_append_singleton, ih, hrt]
    simp only [Option.getD_some]
    omega

lemma hexRenderFixed_length : ∀ (n w : Nat), (hexRenderFixed n w).length = w
  | _, 0 => rfl
  | n, w + 1 => by
    show (hexRenderFixed (n / 16) w ++ [hexDigitChar (n % 16)]).length = w + 1
    rw [List.length_append, List.length_singleton, hexRenderFixed_length (n / 16) w]

lemma hexRenderFixed_lower :
    ∀ (n w : Nat), ∀ c ∈ hexRenderFixed n w, isLowerHexDigit c = true
  | _, 0 => by intro c hc; simp [hexRenderFixed] at hc
  | n, w + 1 => by
    intro c hc
    have : c ∈ hexRenderFixed (n / 16) w ++ [hexDigitChar (n % 16)] := hc
    rcases List.mem_append.mp this with hm | hm
    · exact hexRenderFixed_lower (n / 16) w c hm
    · rw [List.mem_singleton.mp hm]
      exact (lower_of_hexDigitChar (n % 16) (Nat.mod_lt _ (by omega))).2

lemma fromStrRadix16_of_lower {cs : List Char} {bound : Nat}
    (hne : cs ≠ []) (h : ∀ c ∈ cs, isLowerHexDigit c = true)
    (hlt : hexVal cs < bound) :
    fromStrRadix16 cs bound = some (hexVal cs) := by
  unfold fromStrRadix16
  have hhead : cs.head? ≠ some '+' := by
    cases cs with
    | nil => simp
    | cons c cs =>
      intro he
      rw [List.head?_cons] at he
      exact not_plus_of_lower (h c (List.mem_cons_self c cs)) (Option.some.inj he)
  rw [if_neg hhead]
  simp only
  rw [if_neg (by simpa [List.isEmpty_iff] using hne)]
  rw [parseHexCore_of_lower cs 0 h]
  simp only
  rw [if_pos (by simpa [hexVal_eq_hexValFrom] using hlt)]
  rfl

/-! ## splitDash lemmas -/

lemma splitDash_no_dash : ∀ {cs : List Char}, '-' ∉ cs → splitDash cs = [cs]
  | [], _ => rfl
  | c :: cs, h => by
    have hc : c ≠ '-' := fun he => h (he ▸ List.mem_cons_self c cs)
    have ih := splitDash_no_dash (fun hm => h (List.mem_cons_of_mem c hm))
    unfold splitDash
    rw [if_neg hc, ih]

lemma splitDash_append : ∀ {a rest : List Char}, '-' ∉ a →
    splitDash (a ++ '-' :: rest) = a :: splitDash rest
  | [], rest, _ => by simp [splitDash]
  | c :: a, rest, h => by
    have hc : c ≠ '-' := fun he => h (he ▸ List.mem_cons_self c a)
    have ih := @splitDash_append a rest (fun hm => h (List.mem_cons_of_mem c hm))
    show (if c = '-' then [] :: splitDash (a ++ '-' :: rest)
      else
        match splitDash (a ++ '-' :: rest) with
        | [] => [[c]]
        | p :: ps => (c :: p) :: ps) = (c :: a) :: splitDash rest
    rw [if_neg hc, ih]

lemma not_dash_mem {cs : List Char} (h : ∀ c ∈ cs, isLowerHexDigit c = true) :
    '-' ∉ cs :=
  fun hm => not_dash_of_lower (h '-' hm) rfl

lemma ne_nil_of_length_pos {cs : List Char} {n : Nat} (h : cs.length = n + 1) :
    cs ≠ [] := by
  intro he
  subst he
  simp at h

/-- The traceparent string `00-<trace-id>-<span-id>-<flags>` built from
its three hex components. -/
def mkTraceparent (t s f : List Char) : String :=
  String.mk ("00-".data ++ t ++ "-".data ++ s ++ "-".data ++ f)

lemma mkTraceparent_data (t s f : List Char) :
    (mkTraceparent t s f).data = "00".data ++ '-' :: (t ++ '-' :: (s ++ '-' :: f)) := by
  show "00-".data ++ t ++ "-".data ++ s ++ "-".data ++ f = _
  simp only [show "00-".data = ['0', '0', '-'] from rfl,
    show "-".data = ['-'] from rfl, show "00".data = ['0', '0'] from rfl,
    List.cons_append, List.nil_append, List.append_assoc]

lemma splitDash_mkTraceparent {t s f : List Char}
    (ht : ∀ c ∈ t, isLowerHexDigit c = true)
    (hs : ∀ c ∈ s, isLowerHexDigit c = true)
    (hf : ∀ c ∈ f, isLowerHexDigit c = true) :
    splitDash (mkTraceparent t s f).data = ["00".data, t, s, f] := by
  rw [mkTraceparent_data,
    splitDash_append (by decide : '-' ∉ "00".data),
    splitDash_append (not_dash_mem ht),
    splitDash_append (not_dash_mem hs),
    splitDash_no_dash (not_dash_mem hf)]

lemma parse_traceparent_mkTraceparent {t s f : List Char}
    (ht : ∀ c ∈ t, isLowerHexDigit c = true) (htl : t.length = 32)
    (hs : ∀ c ∈ s, isLowerHexDigit c = true) (hsl : s.length = 16)
    (hf : ∀ c ∈ f, isLowerHexDigit c = true) (hfl : f.length = 2)
    (htz : hexVal t ≠ 0) (hsz : hexVal s ≠ 0) :
    parse_traceparent (mkTraceparent t s f) =
      some ⟨some ⟨hexVal t, hexVal s, hexVal f⟩⟩ := by
  have hT : fromStrRadix16 t (2 ^ 128) = some (hexVal t) :=
    fromStrRadix16_of_lower (ne_nil_of_length_pos (n := 31) htl) ht
      (by have := hexVal_lt t; rw [htl] at this; norm_num at this ⊢; exact this)
  have hS : fromStrRadix16 s (2 ^ 64) = some (hexVal s) :=
    fromStrRadix16_of_lower (ne_nil_of_length_pos (n := 15) hsl) hs
      (by have := hexVal_lt s; rw [hsl] at this; norm_num at this ⊢; exact this)
  have hF : fromStrRadix16 f (2 ^ 8) = some (hexVal f) :=
    fromStrRadix16_of_lower (ne_nil_of_length_pos (n := 1) hfl) hf
      (by have := hexVal_lt f; rw [hfl] at this; norm_num at this ⊢; exact this)
  unfold parse_traceparent
  rw [splitDash_mkTraceparent ht hs hf]
  show (if "00".data ≠ "00".data then none else parseTraceparentTail t s f) = _
  rw [if_neg (by simp)]
  unfold parseTraceparentTail
  rw [hT, hS, hF]
  exact if_neg (by simp [htz, hsz])

/-- C1.  For every well-formed traceparent `00-<trace-id>-<span-id>-<flags>`
carried in a comment object's `traceparent` field — trace id 32 lowercase
hex chars, span id 16, flags one byte (2 hex chars) with the sampled bit
set, neither id all-zero — extraction via
`extract_context_from_comment` / `parse_traceparent` succeeds, and
`format_trace_comment` on the extracted context reproduces the very same
trace-id, span-id and flags characters, byte for byte, in the emitted
SQL comment. -/
theorem traceparent_roundtrip (t s f : List Char) (sql : String)
    (ht : ∀ c ∈ t, isLowerHexDigit c = true) (htl : t.length = 32)
    (hs : ∀ c ∈ s, isLowerHexDigit c = true) (hsl : s.length = 16)
    (hf : ∀ c ∈ f, isLowerHexDigit c = true) (hfl : f.length = 2)
    (htz : hexVal t ≠ 0) (hsz : hexVal s ≠ 0) (hsmp : hexVal f % 2 = 1) :
    ∃ ctx,
      extract_context_from_comment
        (some (.obj [("traceparent", .str (mkTraceparent t s f))])) = some ctx ∧
      format_trace_comment sql ctx =
        .owned (String.mk (commentOpen ++ "00-".data ++ t ++ "-".data ++ s ++
          "-".data ++ f ++ commentClose ++ sql.data)) := by
  refine ⟨⟨some ⟨hexVal t, hexVal s, hexVal f⟩⟩, ?_, ?_⟩
  · exact parse_traceparent_mkTraceparent ht htl hs hsl hf hfl htz hsz
  · unfold format_trace_comment Ctx.span_context
    simp only [Option.getD_some]
    rw [if_pos (by simp [SpanCtx.is_valid, SpanCtx.is_sampled, htz, hsz, hsmp])]
    rw [show hexRenderFixed (hexVal t) 32 = t from htl ▸ hexRenderFixed_hexVal t ht,
      show hexRenderFixed (hexVal s) 16 = s from hsl ▸ hexRenderFixed_hexVal s hs,
      show hexRenderFixed (hexVal f) 2 = f from hfl ▸ hexRenderFixed_hexVal f hf]

/-- Witness for C1 at the W3C example traceparent. -/
theorem traceparent_roundtrip_witness :
    ∃ ctx,
      extract_context_from_comment
        (some (.obj [("traceparent", .str (mkTraceparent
          "4bf92f3577b34da6a3ce929d0e0e4736".data "00f067aa0ba902b7".data
          "01".data))])) = some ctx ∧
      format_trace_comment "SELECT 1" ctx =
        .owned (String.mk (commentOpen ++ "00-".data ++
          "4bf92f3577b34da6a3ce929d0e0e4736".data ++ "-".data ++
          "00f067aa0ba902b7".data ++ "-".data ++ "01".data ++ commentClose ++
          "SELECT 1".data)) :=
  traceparent_roundtrip _ _ _ _ (by decide) (by decide) (by decide) (by decide)
    (by decide) (by decide) (by decide) (by decide) (by decide)

/-- C2.  Every malformed comment yields "no context" (`none`), never an
error: a comment that is not JSON (including the empty comment), a JSON
value without a string `traceparent` field, a traceparent whose
dash-split does not have exactly 4 parts (including the empty
traceparent), a version part other than `00`, a trace-id or span-id that
is not valid hex of its width, and an all-zero trace-id or span-id.  The
model's return type (`Option` with no error alternative) reflects the
source's total `ok()?` chain: extraction cannot fail a request. -/
theorem extraction_malformed_no_context :
    extract_context_from_comment none = none ∧
    (∀ j : Json, j.get? "traceparent" = none →
      extract_context_from_comment (some j) = none) ∧
    (∀ (j : Json) (x : Json), j.get? "traceparent" = some x → x.asStr = none →
      extract_context_from_comment (some j) = none) ∧
    parse_traceparent "" = none ∧
    (∀ tp : String, (splitDash tp.data).length ≠ 4 → parse_traceparent tp = none) ∧
    (∀ (tp : String) (v t s f : List Char), splitDash tp.data = [v, t, s, f] →
      v ≠ "00".data → parse_traceparent tp = none) ∧
    (∀ (tp : String) (v t s f : List Char), splitDash tp.data = [v, t, s, f] →
      fromStrRadix16 t (2 ^ 128) = none → parse_traceparent tp = none) ∧
    (∀ (tp : String) (v t s f : List Char), splitDash tp.data = [v, t, s, f] →
      fromStrRadix16 s (2 ^ 64) = none → parse_traceparent tp = none) ∧
    (∀ (tp : String) (v t s f : List Char), splitDash tp.data = [v, t, s, f] →
      fromStrRadix16 t (2 ^ 128) = some 0 → parse_traceparent tp = none) ∧
    (∀ (tp : String) (v t s f : List Char), splitDash tp.data = [v, t, s, f] →
      fromStrRadix16 s (2 ^ 64) = some 0 → parse_traceparent tp = none) := by
  refine ⟨rfl, ?_, ?_, rfl, ?_, ?_, ?_, ?_, ?_, ?_⟩
  · intro j hj
    show (Option.some j).bind (fun json => (json.get? "traceparent").bind
      (fun tp => tp.asStr.bind parse_traceparent)) = none
    rw [Option.some_bind, hj]
    rfl
  · intro j x hj hx
    show (Option.some j).bind (fun json => (json.get? "traceparent").bind
      (fun tp => tp.asStr.bind parse_traceparent)) = none
    rw [Option.some_bind, hj, Option.some_bind, hx]
    rfl
  · intro tp h
    unfold parse_traceparent
    split
    next v t s f heq => exact absurd (by rw [heq]; rfl) h
    next => rfl
  · intro tp v t s f heq hv
    unfold parse_traceparent
    rw [heq]
    show (if v ≠ "00".data then none else parseTraceparentTail t s f) = none
    rw [if_pos hv]
  · intro tp v t s f heq hT
    unfold parse_traceparent
    rw [heq]
    show (if v ≠ "00".data then none else parseTraceparentTail t s f) = none
    by_cases hve : v ≠ "00".data
    · rw [if_pos hve]
    · rw [if_neg hve]
      unfold parseTraceparentTail
      rw [hT]
  · intro tp v t s f heq hS
    unfold parse_traceparent
    rw [heq]
    show (if v ≠ "00".data then none else parseTraceparentTail t s f) = none
    by_cases hve : v ≠ "00".data
    · rw [if_pos hve]
    · rw [if_neg hve]
      unfold parseTraceparentTail
      cases fromStrRadix16 t (2 ^ 128) with
      | none => rfl
      | some a => rw [hS]
  · intro tp v t s f heq hT
    unfold parse_traceparent
    rw [heq]
    show (if v ≠ "00".data then none else parseTraceparentTail t s f) = none
    by_cases hve : v ≠ "00".data
    · rw [if_pos hve]
    · rw [if_neg hve]
      unfold parseTraceparentTail
      rw [hT]
      cases fromStrRadix16 s (2 ^ 64) with
      | none => rfl
      | some b =>
        cases fromStrRadix16 f (2 ^ 8) with
        | none => rfl
        | some c => exact if_pos (Or.inl rfl)
  · intro tp v t s f heq hS
    unfold parse_traceparent
    rw [heq]
    show (if v ≠ "00".data then none else parseTraceparentTail t s f) = none
    by_cases hve : v ≠ "00".data
    · rw [if_pos hve]
    · rw [if_neg hve]
      unfold parseTraceparentTail
      cases fromStrRadix16 t (2 ^ 128) with
      | none => rfl
      | some a =>
        rw [hS]
        cases fromStrRadix16 f (2 ^ 8) with
        | none => rfl
        | some c => exact if_pos (Or.inr rfl)

/-- Witness for C2: concrete malformed inputs through the theorem —
a comment without the field, a wrong part count, a wrong version, bad
hex, and an all-zero trace id. -/
theorem extraction_malformed_no_context_witness :
    extract_context_from_comment (some (.obj [("other", .str "field")])) = none ∧
    parse_traceparent "00-abc" = none ∧
    parse_traceparent "01-4bf92f3577b34da6a3ce929d0e0e4736-00f067aa0ba902b7-01" = none ∧
    parse_traceparent "00-zzf92f3577b34da6a3ce929d0e0e4736-00f067aa0ba902b7-01" = none ∧
    parse_traceparent "00-00000000000000000000000000000000-00f067aa0ba902b7-01" = none :=
  ⟨extraction_malformed_no_context.2.1 _ rfl,
   extraction_malformed_no_context.2.2.2.2.1 _ (by decide),
   extraction_malformed_no_context.2.2.2.2.2.1 _ "01".data
     "4bf92f3577b34da6a3ce929d0e0e4736".data "00f067aa0ba902b7".data "01".data
     (by decide) (by decide),
   extraction_malformed_no_context.2.2.2.2.2.2.1 _ "00".data
     "zzf92f3577b34da6a3ce929d0e0e4736".data "00f067aa0ba902b7".data "01".data
     (by decide) (by decide),
   extraction_malformed_no_context.2.2.2.2.2.2.2.2.1 _ "00".data
     "00000000000000000000000000000000".data "00f067aa0ba902b7".data "01".data
     (by decide) (by decide)⟩

/-- C3.  Injection: an invalid or unsampled context leaves the query
borrowed and unchanged (identity, no allocation); a valid sampled
context yields an owned string that is exactly the comment
`/* traceparent='00-<trace-id>-<span-id>-<flags>' */ ` — ids and flags
in canonical lowercase fixed-width hex (32, 16, and 2 characters that
parse back to the context's values) — followed by the original query. -/
theorem trace_comment_injection (sql : String) (c : Ctx)
    (hbt : c.span_context.traceId < 2 ^ 128)
    (hbs : c.span_context.spanId < 2 ^ 64)
    (hbf : c.span_context.flags < 2 ^ 8) :
    (¬ (c.span_context.is_valid = true ∧ c.span_context.is_sampled = true) →
      format_trace_comment sql c = .borrowed sql) ∧
    (c.span_context.is_valid = true → c.span_context.is_sampled = true →
      ∃ tHex sHex fHex : List Char,
        tHex.length = 32 ∧ sHex.length = 16 ∧ fHex.length = 2 ∧
        (∀ ch ∈ tHex, isLowerHexDigit ch = true) ∧
        (∀ ch ∈ sHex, isLowerHexDigit ch = true) ∧
        (∀ ch ∈ fHex, isLowerHexDigit ch = true) ∧
        hexVal tHex = c.span_context.traceId ∧
        hexVal sHex = c.span_context.spanId ∧
        hexVal fHex = c.span_context.flags ∧
        format_trace_comment sql c =
          .owned (String.mk (commentOpen ++ "00-".data ++ tHex ++ "-".data ++
            sHex ++ "-".data ++ fHex ++ commentClose ++ sql.data))) := by
  constructor
  · intro h
    unfold format_trace_comment
    rw [if_neg (by simpa [Bool.and_eq_true] using h)]
  · intro hv hsmp
    refine ⟨hexRenderFixed c.span_context.traceId 32,
      hexRenderFixed c.span_context.spanId 16,
      hexRenderFixed c.span_context.flags 2,
      hexRenderFixed_length _ _, hexRenderFixed_length _ _, hexRenderFixed_length _ _,
      hexRenderFixed_lower _ _, hexRenderFixed_lower _ _, hexRenderFixed_lower _ _,
      hexVal_hexRenderFixed 32 _ (by norm_num at hbt ⊢; exact hbt),
      hexVal_hexRenderFixed 16 _ (by norm_num at hbs ⊢; exact hbs),
      hexVal_hexRenderFixed 2 _ (by norm_num at hbf ⊢; exact hbf), ?_⟩
    unfold format_trace_comment
    rw [if_pos (by rw [hv, hsmp]; rfl)]

/-- Witness for C3: the unsampled branch at a concrete context (flags
byte 0), and the sampled branch at the W3C example context. -/
theorem trace_comment_injection_witness :
    format_trace_comment "SELECT 1" ⟨some ⟨1, 1, 0⟩⟩ = .borrowed "SELECT 1" ∧
    ∃ tHex sHex fHex : List Char,
      tHex.length = 32 ∧ sHex.length = 16 ∧ fHex.length = 2 ∧
      (∀ ch ∈ tHex, isLowerHexDigit ch = true) ∧
      (∀ ch ∈ sHex, isLowerHexDigit ch = true) ∧
      (∀ ch ∈ fHex, isLowerHexDigit ch = true) ∧
      hexVal tHex = (Ctx.mk (some ⟨3, 7, 1⟩)).span_context.traceId ∧
      hexVal sHex = (Ctx.mk (some ⟨3, 7, 1⟩)).span_context.spanId ∧
      hexVal fHex = (Ctx.mk (some ⟨3, 7, 1⟩)).span_context.flags ∧
      format_trace_comment "SELECT 1" ⟨some ⟨3, 7, 1⟩⟩ =
        .owned (String.mk (commentOpen ++ "00-".data ++ tHex ++ "-".data ++
          sHex ++ "-".data ++ fHex ++ commentClose ++ "SELECT 1".data)) :=
  ⟨(trace_comment_injection "SELECT 1" ⟨some ⟨1, 1, 0⟩⟩ (by decide) (by decide)
      (by decide)).1 (by decide),
   (trace_comment_injection "SELECT 1" ⟨some ⟨3, 7, 1⟩⟩ (by decide) (by decide)
      (by decide)).2 (by decide) (by decide)⟩

/-! ## Command processor lemmas and theorems -/

lemma killOpExtract_skip :
    ∀ {pre rest : List (String × Bson)}, (∀ kv ∈ pre, kv.1 ≠ "op") →
      killOpExtract (pre ++ rest) = killOpExtract rest
  | [], _, _ => rfl
  | (k, v) :: pre, rest, h => by
    have hk : k ≠ "op" := h (k, v) (List.mem_cons_self _ _)
    rw [List.cons_append]
    simp only [killOpExtract]
    rw [if_neg hk]
    exact killOpExtract_skip (fun kv hm => h kv (List.mem_cons_of_mem _ hm))

lemma killOpExtract_none {fields : List (String × Bson)}
    (h : ∀ kv ∈ fields, kv.1 ≠ "op") : killOpExtract fields = .ok none := by
  have := @killOpExtract_skip fields [] h
  rw [List.append_nil] at this
  rw [this]
  rfl

/-- C4 counterexample.  A `killOp` against the non-admin database
`"test"` with no `"op"` field returns `BadValue`, not `Unauthorized`:
`process_kill_op` validates the `"op"` field before the admin check, so
the claim's "every getParameter or killOp command whose target database
is not admin returns Unauthorized" fails at this input. -/
theorem admin_guard_counterexample :
    process_kill_op "test" [] = .error (.bad_value "Did not provide op field") ∧
    (DocErr.bad_value "Did not provide op field").code ≠ ErrorCode.Unauthorized :=
  ⟨rfl, by decide⟩

/-- C4 (amended).  Field extraction runs before the admin guard in both
processors; whenever extraction succeeds, a non-admin target database
yields `Unauthorized` with no backend dispatch, and an admin target
proceeds to backend dispatch (for `killOp`, "extraction succeeds" means
the required string `"op"` field was found). -/
theorem admin_guard_amended :
    (∀ (db : String) (fields : List (String × Bson)) (st : GetParamState),
      getParamExtract fields ⟨false, false, false, []⟩ = .ok st → db ≠ "admin" →
      process_get_parameter db fields =
        .error ⟨.Unauthorized,
          "getParameter may only be run against the admin database."⟩) ∧
    (∀ (fields : List (String × Bson)) (st : GetParamState),
      getParamExtract fields ⟨false, false, false, []⟩ = .ok st →
      process_get_parameter "admin" fields =
        .ok (if st.star then (true, false, [])
          else (st.allParameters, st.showDetails, st.params))) ∧
    (∀ (db : String) (fields : List (String × Bson)) (op : String),
      killOpExtract fields = .ok (some op) → db ≠ "admin" →
      process_kill_op db fields =
        .error ⟨.Unauthorized,
          "killOp may only be run against the admin database."⟩) ∧
    (∀ (fields : List (String × Bson)) (op : String),
      killOpExtract fields = .ok (some op) →
      process_kill_op "admin" fields = .ok op) := by
  refine ⟨?_, ?_, ?_, ?_⟩
  · intro db fields st hext hdb
    unfold process_get_parameter
    simp only [hext]
    exact if_pos hdb
  · intro fields st hext
    unfold process_get_parameter
    simp only [hext]
    rw [if_neg (by simp)]
    cases hst : st.star <;> simp [hst]
  · intro db fields op hext hdb
    unfold process_kill_op
    simp only [hext]
    exact if_pos hdb
  · intro fields op hext
    unfold process_kill_op
    simp only [hext]
    rw [if_neg (by simp)]

/-- Witness for the amended C4: a non-admin `getParameter` and `killOp`
with fields present hit `Unauthorized`; the same commands against
`"admin"` reach backend dispatch. -/
theorem admin_guard_amended_witness :
    process_get_parameter "test" [("someParam", .int32 1)] =
      .error ⟨.Unauthorized,
        "getParameter may only be run against the admin database."⟩ ∧
    process_get_parameter "admin" [("someParam", .int32 1)] =
      .ok (false, false, ["someParam"]) ∧
    process_kill_op "test" [("op", .string "shard1:123")] =
      .error ⟨.Unauthorized,
        "killOp may only be run against the admin database."⟩ ∧
    process_kill_op "admin" [("op", .string "shard1:123")] = .ok "shard1:123" :=
  ⟨admin_guard_amended.1 "test" _ ⟨false, false, false, ["someParam"]⟩ rfl
      (by decide),
   admin_guard_amended.2.1 _ ⟨false, false, false, ["someParam"]⟩ rfl,
   admin_guard_amended.2.2.1 "test" _ "shard1:123" rfl (by decide),
   admin_guard_amended.2.2.2 _ "shard1:123" rfl⟩

/-- C5.  `killOp`'s `"op"` field: missing yields `BadValue`, present but
not a string yields `TypeMismatch` (naming the offending type), both
synchronously with no backend call; when `"op"` is a string (and the
target is admin, the guard C4 establishes), the named operation id is
passed to backend dispatch. -/
theorem kill_op_field_validation :
    (∀ (db : String) (fields : List (String × Bson)),
      (∀ kv ∈ fields, kv.1 ≠ "op") →
      process_kill_op db fields = .error (.bad_value "Did not provide op field")) ∧
    (∀ (db : String) (pre post : List (String × Bson)) (v : Bson),
      (∀ kv ∈ pre, kv.1 ≠ "op") → v.asStr = none →
      process_kill_op db (pre ++ ("op", v) :: post) =
        .error (.type_mismatch
          ("Expected op field to be a string, but got " ++ v.elementTypeName))) ∧
    (∀ (pre post : List (String × Bson)) (s : String),
      (∀ kv ∈ pre, kv.1 ≠ "op") → (∀ kv ∈ post, kv.1 ≠ "op") →
      process_kill_op "admin" (pre ++ ("op", .string s) :: post) = .ok s) := by
  refine ⟨?_, ?_, ?_⟩
  · intro db fields h
    unfold process_kill_op
    simp only [killOpExtract_none h]
  · intro db pre post v hpre hv
    have hcons : killOpExtract (("op", v) :: post) =
        .error (.type_mismatch
          ("Expected op field to be a string, but got " ++ v.elementTypeName)) := by
      simp only [killOpExtract]
      rw [if_pos trivial, hv]
    unfold process_kill_op
    simp only [killOpExtract_skip hpre, hcons]
  · intro pre post s hpre hpost
    have hcons : killOpExtract (("op", .string s) :: post) = .ok (some s) := by
      simp only [killOpExtract]
      rw [if_pos trivial]
      show (match killOpExtract post with
        | Except.ok r => (Except.ok (r.or (some s)) : Except DocErr (Option String))
        | Except.error e => Except.error e) = Except.ok (some s)
      rw [killOpExtract_none hpost]
      rfl
    unfold process_kill_op
    simp only [killOpExtract_skip hpre, hcons]
    rw [if_neg (by simp)]

/-- Witness for C5: a `killOp` without `"op"` (`BadValue`), with an
integer `"op"` (`TypeMismatch` naming `Int32`), and with a string
`"op"` on admin (dispatched). -/
theorem kill_op_field_validation_witness :
    process_kill_op "admin" [("killOp", .int32 1)] =
      .error (.bad_value "Did not provide op field") ∧
    process_kill_op "admin" [("killOp", .int32 1), ("op", .int32 7)] =
      .error (.type_mismatch "Expected op field to be a string, but got Int32") ∧
    process_kill_op "admin" [("killOp", .int32 1), ("op", .string "shard1:42")] =
      .ok "shard1:42" :=
  ⟨kill_op_field_validation.1 "admin" [("killOp", .int32 1)] (by decide),
   kill_op_field_validation.2.1 "admin" [("killOp", .int32 1)] [] (.int32 7)
     (by decide) rfl,
   kill_op_field_validation.2.2 [("killOp", .int32 1)] [] "shard1:42"
     (by decide) (by decide)⟩

/-- C6.  `collStats` and `dbStats` coerce the `scale` field through the
very same rule: `Double` as-is, `Int32`/`Int64` widened to the floating
value, absent/`Undefined`/`Null` defaulting to `1.0`, and every other
BSON type a `TypeMismatch` naming the offending type. -/
theorem scale_coercion_uniform :
    (∀ payload : List (String × Bson),
      process_coll_stats_scale payload = process_db_stats_scale payload) ∧
    (∀ payload, bsonGet payload "scale" = none →
      process_coll_stats_scale payload = .ok 1) ∧
    (∀ payload q, bsonGet payload "scale" = some (.double q) →
      process_coll_stats_scale payload = .ok q) ∧
    (∀ payload n, bsonGet payload "scale" = some (.int32 n) →
      process_coll_stats_scale payload = .ok (n : ℚ)) ∧
    (∀ payload n, bsonGet payload "scale" = some (.int64 n) →
      process_coll_stats_scale payload = .ok (n : ℚ)) ∧
    (∀ payload, bsonGet payload "scale" = some .undefined →
      process_coll_stats_scale payload = .ok 1) ∧
    (∀ payload, bsonGet payload "scale" = some .null →
      process_coll_stats_scale payload = .ok 1) ∧
    (∀ payload v, bsonGet payload "scale" = some v →
      (∀ q, v ≠ .double q) → (∀ n, v ≠ .int32 n) → (∀ n, v ≠ .int64 n) →
      v ≠ .undefined → v ≠ .null →
      process_coll_stats_scale payload =
        .error ⟨.TypeMismatch,
          "Unexpected bson type for scale: " ++ v.elementTypeName⟩) := by
  refine ⟨fun _ => rfl, ?_, ?_, ?_, ?_, ?_, ?_, ?_⟩
  · intro payload h
    unfold process_coll_stats_scale
    rw [h]
  · intro payload q h
    unfold process_coll_stats_scale
    rw [h]
    rfl
  · intro payload n h
    unfold process_coll_stats_scale
    rw [h]
    rfl
  · intro payload n h
    unfold process_coll_stats_scale
    rw [h]
    rfl
  · intro payload h
    unfold process_coll_stats_scale
    rw [h]
    rfl
  · intro payload h
    unfold process_coll_stats_scale
    rw [h]
    rfl
  · intro payload v h hd h32 h64 hu hn
    unfold process_coll_stats_scale
    rw [h]
    cases v with
    | double q => exact absurd rfl (hd q)
    | int32 n => exact absurd rfl (h32 n)
    | int64 n => exact absurd rfl (h64 n)
    | undefined => exact absurd rfl hu
    | null => exact absurd rfl hn
    | string s => rfl
    | bool b => rfl
    | document fields => rfl
    | other t => rfl

/-- Witness for C6, at the spec's own examples: Double `2.5`,
Int32 `4`, Int64 `9`, Null, absent, and a string value. -/
theorem scale_coercion_uniform_witness :
    process_coll_stats_scale [("scale", .double (5 / 2))] = .ok (5 / 2) ∧
    process_coll_stats_scale [("scale", .int32 4)] = .ok 4 ∧
    process_coll_stats_scale [("scale", .int64 9)] = .ok 9 ∧
    process_coll_stats_scale [("scale", .null)] = .ok 1 ∧
    process_coll_stats_scale [("collStats", .string "c")] = .ok 1 ∧
    process_coll_stats_scale [("scale", .string "big")] =
      .error ⟨.TypeMismatch, "Unexpected bson type for scale: String"⟩ :=
  ⟨scale_coercion_uniform.2.2.1 _ (5 / 2) rfl,
   by
     have := scale_coercion_uniform.2.2.2.1 [("scale", .int32 4)] 4 rfl
     simpa using this,
   by
     have := scale_coercion_uniform.2.2.2.2.1 [("scale", .int64 9)] 9 rfl
     simpa using this,
   scale_coercion_uniform.2.2.2.2.2.2.1 _ rfl,
   scale_coercion_uniform.2.1 _ rfl,
   scale_coercion_uniform.2.2.2.2.2.2.2 _ (.string "big") rfl
     (fun q h => by cases h) (fun n h => by cases h) (fun n h => by cases h)
     (by intro h; cases h) (by intro h; cases h)⟩

/-! ## Telemetry configuration resolver theorems -/

lemma resolves_or_getD {α : Type} (j e : Option α) (d : α) :
    ResolvesJsonEnvDefault j e d ((j.or e).getD d) := by
  refine ⟨?_, ?_, ?_⟩
  · intro v hv
    rw [hv]
    rfl
  · intro hj v hv
    rw [hj, hv]
    rfl
  · intro hj he
    rw [hj, he]
    rfl

lemma resolves_or2_getD {α : Type} (j e1 e2 : Option α) (d : α) :
    ResolvesJsonEnv2Default j e1 e2 d (((j.or e1).or e2).getD d) := by
  refine ⟨?_, ?_, ?_, ?_⟩
  · intro v hv
    rw [hv]
    rfl
  · intro hj v hv
    rw [hj, hv]
    rfl
  · intro hj h1 v hv
    rw [hj, h1, hv]
    rfl
  · intro hj h1 h2
    rw [hj, h1, h2]
    rfl

/-- C7.  Every telemetry configuration option — the service identity,
and the tracing, metrics, and logging sections — resolves through the
fixed three-tier precedence chain: the explicit structured (JSON) value
beats its named environment variable (or variable pair), which beats the
compiled default.  The sampling ratio resolves through the same chain
and the clamp to `[0, 1]` applies to whichever source won. -/
theorem telemetry_config_precedence (env : EnvState) (tc : TracingConfig)
    (mc : MetricsConfig) (lc : LoggingConfig) (si : TelemetryServiceIdentity) :
    ResolvesJsonEnvDefault si.service_name env.OTEL_SERVICE_NAME
      DEFAULT_SERVICE_NAME (si.service_name_resolved env) ∧
    ResolvesJsonEnvDefault si.service_version env.OTEL_SERVICE_VERSION
      DEFAULT_SERVICE_VERSION (si.service_version_resolved env) ∧
    ResolvesJsonEnvDefault tc.enabled env.OTEL_TRACING_ENABLED
      DEFAULT_TRACING_ENABLED (tc.tracing_enabled env) ∧
    ResolvesJsonEnv2Default tc.otlp_endpoint env.OTEL_EXPORTER_OTLP_TRACES_ENDPOINT
      env.OTEL_EXPORTER_OTLP_ENDPOINT DEFAULT_OTLP_ENDPOINT
      (tc.otlp_endpoint_resolved env) ∧
    ((∀ v, tc.sampling_ratio = some v →
        tc.sampling_ratio_resolved env = clamp01 v) ∧
      (tc.sampling_ratio = none → ∀ v, env.OTEL_TRACES_SAMPLER_ARG = some v →
        tc.sampling_ratio_resolved env = clamp01 v) ∧
      (tc.sampling_ratio = none → env.OTEL_TRACES_SAMPLER_ARG = none →
        tc.sampling_ratio_resolved env = clamp01 DEFAULT_SAMPLING_RATIO_VALUE)) ∧
    ResolvesJsonEnvDefault tc.export_interval_ms env.OTEL_BSP_SCHEDULE_DELAY
      DEFAULT_TRACE_EXPORT_INTERVAL_MS (tc.export_interval_ms_resolved env) ∧
    ResolvesJsonEnvDefault tc.max_export_batch_size env.OTEL_BSP_MAX_EXPORT_BATCH_SIZE
      DEFAULT_TRACE_MAX_EXPORT_BATCH_SIZE (tc.max_export_batch_size_resolved env) ∧
    ResolvesJsonEnv2Default tc.export_timeout_ms env.OTEL_EXPORTER_OTLP_TRACES_TIMEOUT
      env.OTEL_EXPORTER_OTLP_TIMEOUT DEFAULT_EXPORT_TIMEOUT_MS
      (tc.export_timeout_ms_resolved env) ∧
    ResolvesJsonEnvDefault mc.enabled env.OTEL_METRICS_ENABLED
      DEFAULT_METRICS_ENABLED (mc.metrics_enabled env) ∧
    ResolvesJsonEnv2Default mc.otlp_endpoint env.OTEL_EXPORTER_OTLP_METRICS_ENDPOINT
      env.OTEL_EXPORTER_OTLP_ENDPOINT DEFAULT_OTLP_ENDPOINT
      (mc.otlp_endpoint_resolved env) ∧
    ResolvesJsonEnvDefault mc.export_interval_ms env.OTEL_METRIC_EXPORT_INTERVAL
      DEFAULT_COLLECTION_INTERVAL_MS (mc.export_interval_ms_resolved env) ∧
    ResolvesJsonEnv2Default mc.export_timeout_ms env.OTEL_EXPORTER_OTLP_METRICS_TIMEOUT
      env.OTEL_EXPORTER_OTLP_TIMEOUT DEFAULT_EXPORT_TIMEOUT_MS
      (mc.export_timeout_ms_resolved env) ∧
    ResolvesJsonEnvDefault lc.enabled env.OTEL_LOGGING_ENABLED
      DEFAULT_LOGGING_ENABLED (lc.logging_enabled env) ∧
    ResolvesJsonEnv2Default lc.otlp_endpoint env.OTEL_EXPORTER_OTLP_LOGS_ENDPOINT
      env.OTEL_EXPORTER_OTLP_ENDPOINT DEFAULT_OTLP_ENDPOINT
      (lc.otlp_endpoint_resolved env) ∧
    ResolvesJsonEnvDefault lc.level env.RUST_LOG
      DEFAULT_LOG_LEVEL (lc.level_resolved env) ∧
    ResolvesJsonEnvDefault lc.console_enabled env.OTEL_LOGS_CONSOLE_ENABLED
      DEFAULT_CONSOLE_ENABLED (lc.console_enabled_resolved env) ∧
    ResolvesJsonEnvDefault lc.max_queue_size env.OTEL_BLRP_MAX_QUEUE_SIZE
      DEFAULT_MAX_QUEUE_SIZE (lc.max_queue_size_resolved env) ∧
    ResolvesJsonEnvDefault lc.max_export_batch_size env.OTEL_BLRP_MAX_EXPORT_BATCH_SIZE
      DEFAULT_LOG_MAX_EXPORT_BATCH_SIZE (lc.max_export_batch_size_resolved env) ∧
    ResolvesJsonEnvDefault lc.export_interval_ms env.OTEL_BLRP_SCHEDULE_DELAY
      DEFAULT_LOG_EXPORT_INTERVAL_MS (lc.export_interval_ms_resolved env) ∧
    ResolvesJsonEnv2Default lc.export_timeout_ms env.OTEL_EXPORTER_OTLP_LOGS_TIMEOUT
      env.OTEL_EXPORTER_OTLP_TIMEOUT DEFAULT_EXPORT_TIMEOUT_MS
      (lc.export_timeout_ms_resolved env) := by
  refine ⟨resolves_or_getD _ _ _, resolves_or_getD _ _ _, resolves_or_getD _ _ _,
    resolves_or2_getD _ _ _ _, ⟨?_, ?_, ?_⟩, resolves_or_getD _ _ _,
    resolves_or_getD _ _ _, resolves_or2_getD _ _ _ _, resolves_or_getD _ _ _,
    resolves_or2_getD _ _ _ _, resolves_or_getD _ _ _, resolves_or2_getD _ _ _ _,
    resolves_or_getD _ _ _, resolves_or2_getD _ _ _ _, resolves_or_getD _ _ _,
    resolves_or_getD _ _ _, resolves_or_getD _ _ _, resolves_or_getD _ _ _,
    resolves_or_getD _ _ _, resolves_or2_getD _ _ _ _⟩
  · intro v hv
    unfold TracingConfig.sampling_ratio_resolved
    rw [hv]
    rfl
  · intro hj v hv
    unfold TracingConfig.sampling_ratio_resolved
    rw [hj, hv]
    rfl
  · intro hj he
    unfold TracingConfig.sampling_ratio_resolved
    rw [hj, he]
    rfl

/-- Witness for C7: the service name resolved at concrete
configurations — the JSON value beats a set environment variable, the
variable beats the default, the default appears when both are unset —
and the same triple for the metrics export interval. -/
theorem telemetry_config_precedence_witness :
    (TelemetryServiceIdentity.mk (some "json-svc") none).service_name_resolved
      { emptyEnv with OTEL_SERVICE_NAME := some "env-svc" } = "json-svc" ∧
    (TelemetryServiceIdentity.mk none none).service_name_resolved
      { emptyEnv with OTEL_SERVICE_NAME := some "env-svc" } = "env-svc" ∧
    (TelemetryServiceIdentity.mk none none).service_name_resolved emptyEnv =
      DEFAULT_SERVICE_NAME ∧
    (MetricsConfig.mk none none (some 30000) none).export_interval_ms_resolved
      { emptyEnv with OTEL_METRIC_EXPORT_INTERVAL := some 45000 } = 30000 ∧
    (MetricsConfig.mk none none none none).export_interval_ms_resolved
      { emptyEnv with OTEL_METRIC_EXPORT_INTERVAL := some 45000 } = 45000 ∧
    (MetricsConfig.mk none none none none).export_interval_ms_resolved emptyEnv =
      DEFAULT_COLLECTION_INTERVAL_MS :=
  ⟨(telemetry_config_precedence { emptyEnv with OTEL_SERVICE_NAME := some "env-svc" }
      ⟨none, none, none, none, none, none⟩ ⟨none, none, none, none⟩
      ⟨none, none, none, none, none, none, none, none⟩
      ⟨some "json-svc", none⟩).1.1 "json-svc" rfl,
   (telemetry_config_precedence { emptyEnv with OTEL_SERVICE_NAME := some "env-svc" }
      ⟨none, none, none, none, none, none⟩ ⟨none, none, none, none⟩
      ⟨none, none, none, none, none, none, none, none⟩
      ⟨none, none⟩).1.2.1 rfl "env-svc" rfl,
   (telemetry_config_precedence emptyEnv
      ⟨none, none, none, none, none, none⟩ ⟨none, none, none, none⟩
      ⟨none, none, none, none, none, none, none, none⟩
      ⟨none, none⟩).1.2.2 rfl rfl,
   (telemetry_config_precedence { emptyEnv with OTEL_METRIC_EXPORT_INTERVAL := some 45000 }
      ⟨none, none, none, none, none, none⟩ ⟨none, none, some 30000, none⟩
      ⟨none, none, none, none, none, none, none, none⟩
      ⟨none, none⟩).2.2.2.2.2.2.2.2.2.2.1.1 30000 rfl,
   (telemetry_config_precedence { emptyEnv with OTEL_METRIC_EXPORT_INTERVAL := some 45000 }
      ⟨none, none, none, none, none, none⟩ ⟨none, none, none, none⟩
      ⟨none, none, none, none, none, none, none, none⟩
      ⟨none, none⟩).2.2.2.2.2.2.2.2.2.2.1.2.1 rfl 45000 rfl,
   (telemetry_config_precedence emptyEnv
      ⟨none, none, none, none, none, none⟩ ⟨none, none, none, none⟩
      ⟨none, none, none, none, none, none, none, none⟩
      ⟨none, none⟩).2.2.2.2.2.2.2.2.2.2.1.2.2 rfl rfl⟩

/-! ## Metrics recorder theorems -/

lemma mem_phaseEvents {attrs : List (String × String)} {label : String} {ns : Int}
    {e : MetricEvent} (h : e ∈ phaseEvents attrs label ns) :
    ns > 0 ∧ e = .operationDurationTotal (attrs ++ [("db.operation.phase", label)])
      (duration_to_secs ns) := by
  unfold phaseEvents at h
  by_cases hp : ns > 0
  · rw [if_pos hp] at h
    exact ⟨hp, List.mem_singleton.mp h⟩
  · rw [if_neg hp] at h
    cases h

lemma phase_not_in_baseAttrs (request : Option RequestMeta)
    (response : Sum RespOk (CmdErr × Nat)) (collection : String) (l : String) :
    ("db.operation.phase", l) ∉ baseAttrs request response collection := by
  unfold baseAttrs
  cases response with
  | inl r => simp
  | inr p =>
    obtain ⟨err, sz⟩ := p
    simp

/-- C8.  For every completed request the recorder emits the four base
metrics unconditionally and in source order — operation count `+1`,
total duration in seconds from the `HandleRequest` interval (negative
durations clamped to zero), request size from the wire header's declared
length, response size — and emits a phase-labelled duration sub-metric
for each of the three backend intervals exactly when that interval's
elapsed time is strictly positive: each positive interval's sub-metric
is in the stream, every phase-labelled event in the stream belongs to a
strictly positive interval, a request with only `HandleRequest`
populated emits exactly the four base metrics, and one with all four
intervals populated emits the four plus exactly three sub-metrics. -/
theorem request_metrics_emission (header : Header) (request : Option RequestMeta)
    (response : Sum RespOk (CmdErr × Nat)) (collection : String)
    (tracker : RequestTracker) :
    (record_request_metrics header request response collection tracker).take 4 =
      [MetricEvent.operationsCount (baseAttrs request response collection) 1,
       MetricEvent.operationDurationTotal (baseAttrs request response collection)
         (duration_to_secs (tracker .HandleRequest)),
       MetricEvent.requestSizeTotal (baseAttrs request response collection)
         header.length,
       MetricEvent.responseSizeTotal (baseAttrs request response collection)
         (responseSizeBytes response)] ∧
    (tracker .HandleRequest ≤ 0 → duration_to_secs (tracker .HandleRequest) = 0) ∧
    (∀ kind ∈ [RequestIntervalKind.PostgresBeginTransaction,
        RequestIntervalKind.ProcessRequest,
        RequestIntervalKind.PostgresCommitTransaction],
      tracker kind > 0 →
      MetricEvent.operationDurationTotal
          (baseAttrs request response collection ++
            [("db.operation.phase", phaseLabel kind)])
          (duration_to_secs (tracker kind)) ∈
        record_request_metrics header request response collection tracker) ∧
    (∀ (attrs2 : List (String × String)) (v : ℚ) (l : String),
      MetricEvent.operationDurationTotal attrs2 v ∈
        record_request_metrics header request response collection tracker →
      ("db.operation.phase", l) ∈ attrs2 →
      ∃ kind ∈ [RequestIntervalKind.PostgresBeginTransaction,
          RequestIntervalKind.ProcessRequest,
          RequestIntervalKind.PostgresCommitTransaction],
        l = phaseLabel kind ∧ tracker kind > 0) ∧
    (tracker .PostgresBeginTransaction ≤ 0 → tracker .ProcessRequest ≤ 0 →
      tracker .PostgresCommitTransaction ≤ 0 →
      (record_request_metrics header request response collection tracker).length = 4) ∧
    (tracker .PostgresBeginTransaction > 0 → tracker .ProcessRequest > 0 →
      tracker .PostgresCommitTransaction > 0 →
      (record_request_metrics header request response collection tracker).length = 7) := by
  refine ⟨rfl, ?_, ?_, ?_, ?_, ?_⟩
  · intro h
    unfold duration_to_secs
    rw [max_eq_right h]
    simp
  · intro kind hk hpos
    simp only [List.mem_cons, List.not_mem_nil, or_false] at hk
    rcases hk with rfl | rfl | rfl
    · simp [record_request_metrics, phaseEvents, hpos, phaseLabel]
    · simp [record_request_metrics, phaseEvents, hpos, phaseLabel]
    · simp [record_request_metrics, phaseEvents, hpos, phaseLabel]
  · intro attrs2 v l hmem hlab
    unfold record_request_metrics at hmem
    rcases List.mem_append.mp hmem with h012 | hp3
    rotate_left
    · obtain ⟨hp, he⟩ := mem_phaseEvents hp3
      injection he with ha hv2
      subst ha
      rcases List.mem_append.mp hlab with hin | hin
      · exact absurd hin (phase_not_in_baseAttrs request response collection l)
      · rw [List.mem_singleton] at hin
        injection hin with hk hv3
        exact ⟨.PostgresCommitTransaction, by simp, hv3, hp⟩
    rcases List.mem_append.mp h012 with h01 | hp2
    rotate_left
    · obtain ⟨hp, he⟩ := mem_phaseEvents hp2
      injection he with ha hv2
      subst ha
      rcases List.mem_append.mp hlab with hin | hin
      · exact absurd hin (phase_not_in_baseAttrs request response collection l)
      · rw [List.mem_singleton] at hin
        injection hin with hk hv3
        exact ⟨.ProcessRequest, by simp, hv3, hp⟩
    rcases List.mem_append.mp h01 with h0 | hp1
    rotate_left
    · obtain ⟨hp, he⟩ := mem_phaseEvents hp1
      injection he with ha hv2
      subst ha
      rcases List.mem_append.mp hlab with hin | hin
      · exact absurd hin (phase_not_in_baseAttrs request response collection l)
      · rw [List.mem_singleton] at hin
        injection hin with hk hv3
        exact ⟨.PostgresBeginTransaction, by simp, hv3, hp⟩
    · simp only [List.mem_cons, List.not_mem_nil, or_false] at h0
      rcases h0 with he | he | he | he
      · exact absurd he (by simp)
      · injection he with ha hv2
        subst ha
        exact absurd hlab (phase_not_in_baseAttrs request response collection l)
      · exact absurd he (by simp)
      · exact absurd he (by simp)
  · intro h1 h2 h3
    have n1 : ¬ tracker .PostgresBeginTransaction > 0 := by omega
    have n2 : ¬ tracker .ProcessRequest > 0 := by omega
    have n3 : ¬ tracker .PostgresCommitTransaction > 0 := by omega
    simp [record_request_metrics, phaseEvents, n1, n2, n3]
  · intro h1 h2 h3
    simp [record_request_metrics, phaseEvents, h1, h2, h3]

/-- Witness for C8: a tracker with only `HandleRequest` populated emits
exactly the four base events; one with all four intervals populated
emits seven, and its begin-transaction sub-metric is present. -/
theorem request_metrics_emission_witness :
    (record_request_metrics ⟨120⟩ none (.inl ⟨some 64⟩) "c"
      (fun k => if k = .HandleRequest then 5000 else 0)).length = 4 ∧
    (record_request_metrics ⟨120⟩ none (.inl ⟨some 64⟩) "c" (fun _ => 5000)).length = 7 ∧
    MetricEvent.operationDurationTotal
        (baseAttrs none (.inl ⟨some 64⟩) "c" ++
          [("db.operation.phase", phaseLabel .PostgresBeginTransaction)])
        (duration_to_secs 5000) ∈
      record_request_metrics ⟨120⟩ none (.inl ⟨some 64⟩) "c" (fun _ => 5000) :=
  ⟨(request_metrics_emission ⟨120⟩ none (.inl ⟨some 64⟩) "c"
      (fun k => if k = .HandleRequest then 5000 else 0)).2.2.2.2.1
      (by decide) (by decide) (by decide),
   (request_metrics_emission ⟨120⟩ none (.inl ⟨some 64⟩) "c"
      (fun _ => 5000)).2.2.2.2.2 (by decide) (by decide) (by decide),
   (request_metrics_emission ⟨120⟩ none (.inl ⟨some 64⟩) "c"
      (fun _ => 5000)).2.2.1 .PostgresBeginTransaction (by simp) (by decide)⟩

/-! ## Telemetry manager shutdown theorem -/

/-- C9.  `TelemetryManager::shutdown` attempts the tracer, meter and
logger providers in that order, each independently of the others'
outcomes: the attempted list is exactly the present providers whatever
the outcomes; the caller receives the first failure in order; every
later failure is logged as a warning (none is lost); and the result is
success exactly when every present provider shut down cleanly. -/
theorem telemetry_shutdown_policy (tracer meter logger : Option (Option String)) :
    (TelemetryManager.shutdown tracer meter logger).2 =
      (if tracer.isSome then ["tracer"] else []) ++
      (if meter.isSome then ["meter"] else []) ++
      (if logger.isSome then ["logger"] else []) ∧
    (TelemetryManager.shutdown tracer meter logger).1.1 =
      (presentFailures tracer meter logger).head? ∧
    (TelemetryManager.shutdown tracer meter logger).1.2 =
      (presentFailures tracer meter logger).tail ∧
    ((TelemetryManager.shutdown tracer meter logger).1.1 = none ↔
      presentFailures tracer meter logger = []) := by
  rcases tracer with _ | _ | e1 <;> rcases meter with _ | _ | e2 <;>
    rcases logger with _ | _ | e3 <;>
    simp [TelemetryManager.shutdown, shutdownStep, shutdownAttempted, presentFailures]

/-- Witness for C9: with a failing tracer and logger around a clean
meter, the tracer's error is returned, the logger's is warned, and all
three providers are attempted. -/
theorem telemetry_shutdown_policy_witness :
    (TelemetryManager.shutdown (some (some "tracer boom")) (some none)
        (some (some "logger boom"))).2 = ["tracer", "meter", "logger"] ∧
    (TelemetryManager.shutdown (some (some "tracer boom")) (some none)
        (some (some "logger boom"))).1.1 =
      (presentFailures (some (some "tracer boom")) (some none)
        (some (some "logger boom"))).head? ∧
    (TelemetryManager.shutdown (some (some "tracer boom")) (some none)
        (some (some "logger boom"))).1.2 =
      (presentFailures (some (some "tracer boom")) (some none)
        (some (some "logger boom"))).tail :=
  ⟨(telemetry_shutdown_policy (some (some "tracer boom")) (some none)
      (some (some "logger boom"))).1,
   (telemetry_shutdown_policy (some (some "tracer boom")) (some none)
      (some (some "logger boom"))).2.1,
   (telemetry_shutdown_policy (some (some "tracer boom")) (some none)
      (some (some "logger boom"))).2.2.1⟩

/-! ## Process-wide tracing flag theorem -/

lemma runFlagEvents_replicate_read (n : Nat) (st : TelemetryFlagState) :
    runFlagEvents (List.replicate n .read) st =
      (st, List.replicate n (is_tracing_enabled st)) := by
  induction n with
  | zero => rfl
  | succ n ih =>
    rw [List.replicate_succ]
    show (let (st', reads) := runFlagEvents (List.replicate n .read) st
      (st', is_tracing_enabled st :: reads)) = _
    rw [ih]
    rfl

/-- C10.  The process-wide tracing flag has one defined initialization
point: over the process's access trace it is written exactly once,
during telemetry manager startup (the initialization prefix), every
later access is a read through `is_tracing_enabled`, and — starting from
the compile-time initial state — every read observes the once-written
value, so the flag behaves as immutable after initialization. -/
theorem tracing_flag_write_once (enabled : Bool) (n : Nat) :
    (processFlagTrace enabled n).filter FlagEvent.isWrite = [.write enabled] ∧
    (∀ e ∈ (processFlagTrace enabled n).drop initPhaseLength, e.isWrite = false) ∧
    runFlagEvents (processFlagTrace enabled n) TRACING_ENABLED_INIT =
      (⟨enabled⟩, List.replicate n enabled) := by
  refine ⟨?_, ?_, ?_⟩
  · show (FlagEvent.write enabled :: List.replicate n .read).filter FlagEvent.isWrite = _
    rw [List.filter_cons_of_pos (by rfl),
      List.filter_eq_nil_iff.mpr
        (fun e he => by rw [List.eq_of_mem_replicate he]; decide)]
  · intro e he
    have hrep : e ∈ List.replicate n FlagEvent.read := he
    rw [List.eq_of_mem_replicate hrep]
    rfl
  · show runFlagEvents (List.replicate n .read) (set_tracing_enabled enabled _) = _
    rw [runFlagEvents_replicate_read]
    rfl

/-- Witness for C10 at a concrete trace: tracing enabled, three
post-initialization reads. -/
theorem tracing_flag_write_once_witness :
    (processFlagTrace true 3).filter FlagEvent.isWrite = [.write true] ∧
    (∀ e ∈ (processFlagTrace true 3).drop initPhaseLength, e.isWrite = false) ∧
    runFlagEvents (processFlagTrace true 3) TRACING_ENABLED_INIT =
      (⟨true⟩, [true, true, true]) :=
  ⟨(tracing_flag_write_once true 3).1,
   (tracing_flag_write_once true 3).2.1,
   (tracing_flag_write_once true 3).2.2⟩

end DocumentDBGw
